import Mathlib

/-!
Shallow embedding of the Web-Designer canvas editor.

The repository holds two variants of the same React component:
* the full variant (`src/unnamed/part_000`): blocks with icon / text /
  image / table content, a delete, duplicate and create-default action,
  an asynchronous image encoding and an asynchronous table-generation
  request, and a pointer-down guard that ignores events originating on
  an existing block or on a button/input;
* the reduced variant (`src/web-designer/src/App.tsx`): blocks with only
  icon / text content, no delete/duplicate, no guard on pointer-down,
  and a pointer-up that appends the committed block without selecting it.

State is embedded as an explicit structure; every React `setX` call of a
handler becomes a field update of that structure, and each handler is a
pure state-transition function.  `uuidv4()` is modelled by passing the
fresh identifier as an explicit argument.  `prompt(...)` is modelled as an
`Option String` argument (`none` = cancelled).  The `alert(...)` calls are
modelled as a list of emitted alert strings returned next to the state.
Coordinates are integers; `Math.min` is `min` and `Math.abs` is `|·|` on
`Int`.
-/

namespace WebDesigner

/-- Block identifiers: `uuidv4()` returns an opaque string. -/
abbrev Id := String

/-- The `content` tagged union of a block:
`{ type: "icon" | "text" | "image" | "table"; data: any }`.
In the reduced variant only the `icon` and `text` arms occur. -/
inductive Content where
  | icon (data : String)
  | text (data : String)
  | image (data : String)
  | table (data : List (List (String × String)))
deriving DecidableEq, Repr

/-- The `Block` interface of both variants: id, position, extents and an
optional content union. -/
structure Block where
  id : Id
  x : Int
  y : Int
  width : Int
  height : Int
  content : Option Content := none
deriving DecidableEq, Repr

/-- The mouse-event target information read by the full variant's
`handleMouseDown`: whether `target.closest(".rnd-block")` finds a block,
and the target's `tagName`. -/
structure MouseTarget where
  onRndBlock : Bool
  tagName : String
deriving DecidableEq, Repr

/-- The React state of the full variant (`src/unnamed/part_000`):
`blocks`, `selectedId`, `showModal`, `promptText`, `isSelecting`,
`startPoint`, `selectionPreview`. -/
structure AppState where
  blocks : List Block
  selectedId : Option Id
  showModal : Bool
  promptText : String
  isSelecting : Bool
  startPoint : Option (Int × Int)
  selectionPreview : Option Block
deriving DecidableEq, Repr

/-- The initial state: `useState` initialisers of the full variant. -/
def initialState : AppState :=
  { blocks := []
    selectedId := none
    showModal := false
    promptText := ""
    isSelecting := false
    startPoint := none
    selectionPreview := none }

/-- `createDefaultBlock`: append a fixed 200×150 block at (100,100) with a
fresh id and select it. -/
def createDefaultBlock (fresh : Id) (s : AppState) : AppState :=
  let newBlock : Block := { id := fresh, x := 100, y := 100, width := 200, height := 150 }
  { s with blocks := s.blocks ++ [newBlock], selectedId := some newBlock.id }

/-- `deleteBlock(id)`: `setBlocks(blocks.filter(b => b.id !== id))` then
`setSelectedId(null)` — the selection is cleared unconditionally. -/
def deleteBlock (i : Id) (s : AppState) : AppState :=
  { s with blocks := s.blocks.filter (fun b => b.id != i), selectedId := none }

/-- `duplicateBlock(block)`: copy all fields, give a fresh id, offset the
position by (+20,+20), append and select the copy. -/
def duplicateBlock (fresh : Id) (block : Block) (s : AppState) : AppState :=
  let newBlock : Block := { block with id := fresh, x := block.x + 20, y := block.y + 20 }
  { s with blocks := s.blocks ++ [newBlock], selectedId := some newBlock.id }

/-- The fixed icon payload assigned by `addIcon` ("⭐"). -/
def starIcon : String := "⭐"

/-- `addIcon(id)`: replace the content of the block whose id matches with
the fixed icon payload; other blocks untouched. -/
def addIcon (i : Id) (s : AppState) : AppState :=
  { s with blocks := s.blocks.map (fun b =>
      if b.id = i then { b with content := some (Content.icon starIcon) } else b) }

/-- `addText(id)`: `prompt("Enter text:")` modelled as the `input`
argument (`none` = cancelled); `if (!text) return;` rejects both `null`
and the empty string; otherwise replace the matching block's content
wholesale with the text.  The second component is the list of alerts the
handler emits (always none here). -/
def addText (input : Option String) (i : Id) (s : AppState) : AppState × List String :=
  match input with
  | none => (s, [])
  | some t =>
    if t = "" then (s, [])
    else
      ({ s with blocks := s.blocks.map (fun b =>
          if b.id = i then { b with content := some (Content.text t) } else b) }, [])

/-- The `reader.onload` completion of `addImage(id, file)`: with the id
captured at request time and the encoded data URI, replace the matching
block's content; if no block has the id any more, the map leaves every
block unchanged. -/
def addImageComplete (i : Id) (dataUri : String) (s : AppState) : AppState :=
  { s with blocks := s.blocks.map (fun b =>
      if b.id = i then { b with content := some (Content.image dataUri) } else b) }

/-- `sendTablePrompt()`: the transport round-trip is modelled as an
`Except` argument.  On success, the block matching `selectedId` receives
the table rows, the modal closes and the prompt text resets; on a
transport failure the catch branch emits the alert and changes nothing. -/
def sendTablePrompt (response : Except Unit (List (List (String × String))))
    (s : AppState) : AppState × List String :=
  match response with
  | Except.ok rows =>
    ({ s with
        blocks := s.blocks.map (fun b =>
          if some b.id = s.selectedId then { b with content := some (Content.table rows) } else b)
        showModal := false
        promptText := "" }, [])
  | Except.error _ => (s, ["Backend error generating table"])

/-- `handleMouseDown(e)` of the full variant: if the target is inside an
`.rnd-block` or is a BUTTON or INPUT, return without touching any state;
otherwise start a draw gesture at the surface-local point and clear the
selection. -/
def handleMouseDown (target : MouseTarget) (pt : Int × Int) (s : AppState) : AppState :=
  if target.onRndBlock || target.tagName = "BUTTON" || target.tagName = "INPUT" then s
  else { s with isSelecting := true, startPoint := some pt, selectedId := none }

/-- `handleMouseMove(e)`: when a gesture is in progress, recompute the
preview rectangle: top-left is the component-wise `Math.min` of anchor
and current point, extents the component-wise `Math.abs` difference. -/
def handleMouseMove (pt : Int × Int) (s : AppState) : AppState :=
  if s.isSelecting = false then s
  else
    match s.startPoint with
    | none => s
    | some start =>
      { s with selectionPreview := some (
          { id := "temp"
            x := min start.1 pt.1
            y := min start.2 pt.2
            width := |pt.1 - start.1|
            height := |pt.2 - start.2| } : Block) }

/-- `handleMouseUp()` of the full variant: if a preview exists and both
extents strictly exceed 20, append it (with a fresh id) and select it;
then clear `isSelecting`, `startPoint` and `selectionPreview` in every
case. -/
def handleMouseUp (fresh : Id) (s : AppState) : AppState :=
  match s.selectionPreview with
  | some preview =>
    if preview.width > 20 ∧ preview.height > 20 then
      { s with blocks := s.blocks ++ [{ preview with id := fresh }]
               selectedId := some fresh
               isSelecting := false, startPoint := none, selectionPreview := none }
    else
      { s with isSelecting := false, startPoint := none, selectionPreview := none }
  | none => { s with isSelecting := false, startPoint := none, selectionPreview := none }

/-- The `onClick` handler of a rendered block: stop propagation and set
the selection to that block's id. -/
def selectBlock (i : Id) (s : AppState) : AppState :=
  { s with selectedId := some i }

/-- The `onDragStop` handler of a rendered block: merge the new position
into the block matching the id. -/
def dragStop (i : Id) (pos : Int × Int) (s : AppState) : AppState :=
  { s with blocks := s.blocks.map (fun b =>
      if b.id = i then { b with x := pos.1, y := pos.2 } else b) }

/-- The `onResizeStop` handler of a rendered block: merge the new extents
and position into the block matching the id. -/
def resizeStop (i : Id) (w h : Int) (pos : Int × Int) (s : AppState) : AppState :=
  { s with blocks := s.blocks.map (fun b =>
      if b.id = i then { b with width := w, height := h, x := pos.1, y := pos.2 } else b) }

/-! ## The reduced variant (`src/web-designer/src/App.tsx`) -/

namespace Reduced

/-- The React state of the reduced variant: `blocks`, `selectedBlockId`,
`isSelecting`, `startPoint`, `selection` (the in-progress preview). -/
structure RState where
  blocks : List Block
  selectedBlockId : Option Id
  isSelecting : Bool
  startPoint : Option (Int × Int)
  selection : Option Block
deriving DecidableEq, Repr

/-- The initial state of the reduced variant. -/
def rInitialState : RState :=
  { blocks := []
    selectedBlockId := none
    isSelecting := false
    startPoint := none
    selection := none }

/-- `handleMouseDown(e)` of the reduced variant: reads only the
surface-local coordinates of the event — there is no check of the event
target, so every pointer-down starts a draw gesture, records the anchor
and clears the preview and the selection. -/
def handleMouseDown (_target : MouseTarget) (pt : Int × Int) (s : RState) : RState :=
  { s with isSelecting := true
           startPoint := some pt
           selection := none
           selectedBlockId := none }

/-- `handleMouseMove(e)` of the reduced variant: same preview computation
as the full variant (component-wise min / absolute difference). -/
def handleMouseMove (pt : Int × Int) (s : RState) : RState :=
  if s.isSelecting = false then s
  else
    match s.startPoint with
    | none => s
    | some start =>
      { s with selection := some (
          { id := "temp"
            x := min start.1 pt.1
            y := min start.2 pt.2
            width := |pt.1 - start.1|
            height := |pt.2 - start.2| } : Block) }

/-- `handleMouseUp()` of the reduced variant: if the preview exists and
both extents strictly exceed 20, append it with a fresh id — but do NOT
select it; then clear `isSelecting` and `selection` (the anchor
`startPoint` is left as is). -/
def handleMouseUp (fresh : Id) (s : RState) : RState :=
  match s.selection with
  | some sel =>
    if sel.width > 20 ∧ sel.height > 20 then
      { s with blocks := s.blocks ++ [{ sel with id := fresh }]
               isSelecting := false, selection := none }
    else
      { s with isSelecting := false, selection := none }
  | none => { s with isSelecting := false, selection := none }

/-- The `onClick` handler of a rendered block in the reduced variant. -/
def rSelectBlock (i : Id) (s : RState) : RState :=
  { s with selectedBlockId := some i }

/-- `addIconToBlock(id)`: replace the matching block's content with the
fixed icon payload. -/
def addIconToBlock (i : Id) (s : RState) : RState :=
  { s with blocks := s.blocks.map (fun b =>
      if b.id = i then { b with content := some (Content.icon starIcon) } else b) }

/-- `addTextToBlock(id)`: prompt modelled as `input`; `if (!text) return;`
rejects cancelled and empty input; otherwise replace the matching block's
content wholesale with the text.  Alerts emitted are returned next to
the state (always none). -/
def addTextToBlock (input : Option String) (i : Id) (s : RState) : RState × List String :=
  match input with
  | none => (s, [])
  | some t =>
    if t = "" then (s, [])
    else
      ({ s with blocks := s.blocks.map (fun b =>
          if b.id = i then { b with content := some (Content.text t) } else b) }, [])

end Reduced

/-! ## Helper lemmas -/

/-- An update map that fires on no present id leaves the list unchanged. -/
theorem map_noop_of_fresh (l : List Block) (i : Id) (f : Block → Block)
    (h : i ∉ l.map Block.id) :
    l.map (fun b => if b.id = i then f b else b) = l := by
  induction l with
  | nil => rfl
  | cons a l ih =>
    simp only [List.map_cons, List.mem_cons, not_or] at h
    rw [List.map_cons, if_neg (fun hh : a.id = i => h.1 hh.symm), ih h.2]

/-- Mapping an id-preserving function over the registry preserves the
list of ids. -/
theorem ids_map_of_preserve (l : List Block) (f : Block → Block)
    (hf : ∀ b, (f b).id = b.id) :
    (l.map f).map Block.id = l.map Block.id := by
  rw [List.map_map]
  induction l with
  | nil => rfl
  | cons a l ih => simp only [List.map_cons, Function.comp_apply, hf a, ih]

/-- The selection invariant of the full variant: the selected id, when
not null, is the id of a block present in the registry. -/
def selInv (s : AppState) : Prop :=
  ∀ i : Id, s.selectedId = some i → i ∈ s.blocks.map Block.id

/-- The selection invariant of the reduced variant. -/
def rSelInv (r : Reduced.RState) : Prop :=
  ∀ i : Id, r.selectedBlockId = some i → i ∈ r.blocks.map Block.id

/-- The invariant transfers along agreement of the selection and the id
list. -/
theorem selInv_of_fields (s t : AppState) (hsel : t.selectedId = s.selectedId)
    (hids : t.blocks.map Block.id = s.blocks.map Block.id) (hs : selInv s) :
    selInv t := by
  intro i h
  rw [hids]
  exact hs i (hsel ▸ h)

/-- The reduced-variant invariant transfers along agreement of the
selection and the id list. -/
theorem rSelInv_of_fields (s t : Reduced.RState)
    (hsel : t.selectedBlockId = s.selectedBlockId)
    (hids : t.blocks.map Block.id = s.blocks.map Block.id) (hs : rSelInv s) :
    rSelInv t := by
  intro i h
  rw [hids]
  exact hs i (hsel ▸ h)

/-- Concrete blocks used by concrete-state evaluations. -/
def blockA : Block := { id := "a", x := 0, y := 0, width := 30, height := 30 }

/-- A second concrete block with a distinct id. -/
def blockB : Block := { id := "b", x := 50, y := 50, width := 30, height := 30 }

/-! ## C1 — delete -/

/-- A state holding two blocks with block "a" selected. -/
def c1State : AppState :=
  { initialState with blocks := [blockA, blockB], selectedId := some "a" }

/-- C1 (counterexample): with blocks "a" and "b" and "a" selected,
deleting the non-selected block "b" removes it but does NOT leave the
selection unchanged — `deleteBlock` clears the selection
unconditionally, so the selection is no longer "a". -/
theorem deleteBlock_c1_counterexample :
    c1State.selectedId = some "a"
    ∧ "b" ∈ c1State.blocks.map Block.id
    ∧ ("b" : Id) ≠ "a"
    ∧ (deleteBlock "b" c1State).blocks = [blockA]
    ∧ (deleteBlock "b" c1State).selectedId ≠ some "a" := by
  decide

/-- C1 (amended): the delete operation removes exactly the block with the
given id (a block remains in the registry iff it was there and its id
differs), and the selection becomes null unconditionally — whether or not
the deleted block was the selected one. -/
theorem deleteBlock_removes_and_clears (s : AppState) (i : Id) :
    (∀ b : Block, b ∈ (deleteBlock i s).blocks ↔ b ∈ s.blocks ∧ b.id ≠ i)
    ∧ (deleteBlock i s).selectedId = none := by
  refine ⟨?_, rfl⟩
  intro b
  simp [deleteBlock, List.mem_filter, bne_iff_ne]

/-! ## C2 — pointer-up commit -/

/-- A 21×21 in-progress preview rectangle. -/
def c2Preview : Block := { id := "temp", x := 10, y := 10, width := 21, height := 21 }

/-- A reduced-variant state in the middle of a draw gesture whose preview
is 21×21. -/
def c2RState : Reduced.RState :=
  { blocks := []
    selectedBlockId := none
    isSelecting := true
    startPoint := some (10, 10)
    selection := some c2Preview }

/-- C2 (counterexample): in the reduced variant, pointer-up on a 21×21
preview appends the new block to the registry, but the new block does
NOT become the selected block — `handleMouseUp` of
`src/web-designer/src/App.tsx` never sets the selection. -/
theorem handleMouseUp_c2_counterexample :
    c2RState.selection = some c2Preview
    ∧ c2Preview.width > 20 ∧ c2Preview.height > 20
    ∧ (Reduced.handleMouseUp "n" c2RState).blocks = [{ c2Preview with id := "n" }]
    ∧ (Reduced.handleMouseUp "n" c2RState).selectedBlockId ≠ some "n" := by
  decide

/-- C2 (amended): on pointer-up, in the full variant the preview is
appended with a fresh id and becomes selected iff width and height both
strictly exceed 20, otherwise registry and selection are untouched, and
the drawing state (`isSelecting`, `startPoint`, `selectionPreview`) is
cleared in every case; in the reduced variant the same strict > 20 rule
governs the append, but the selection is never changed by pointer-up
(the committed block is not selected) and the stale anchor point is kept
(only the flag and the preview are cleared). -/
theorem handleMouseUp_commit (s : AppState) (r : Reduced.RState) (fresh : Id) (p : Block) :
    ((s.selectionPreview = some p → p.width > 20 → p.height > 20 →
        (handleMouseUp fresh s).blocks = s.blocks ++ [{ p with id := fresh }]
        ∧ (handleMouseUp fresh s).selectedId = some fresh)
     ∧ (s.selectionPreview = some p → ¬(p.width > 20 ∧ p.height > 20) →
        (handleMouseUp fresh s).blocks = s.blocks
        ∧ (handleMouseUp fresh s).selectedId = s.selectedId)
     ∧ (s.selectionPreview = none →
        (handleMouseUp fresh s).blocks = s.blocks
        ∧ (handleMouseUp fresh s).selectedId = s.selectedId)
     ∧ (handleMouseUp fresh s).isSelecting = false
     ∧ (handleMouseUp fresh s).startPoint = none
     ∧ (handleMouseUp fresh s).selectionPreview = none)
    ∧ ((Reduced.handleMouseUp fresh r).selectedBlockId = r.selectedBlockId
     ∧ (r.selection = some p → p.width > 20 → p.height > 20 →
        (Reduced.handleMouseUp fresh r).blocks = r.blocks ++ [{ p with id := fresh }])
     ∧ (r.selection = some p → ¬(p.width > 20 ∧ p.height > 20) →
        (Reduced.handleMouseUp fresh r).blocks = r.blocks)
     ∧ (r.selection = none → (Reduced.handleMouseUp fresh r).blocks = r.blocks)
     ∧ (Reduced.handleMouseUp fresh r).isSelecting = false
     ∧ (Reduced.handleMouseUp fresh r).selection = none
     ∧ (Reduced.handleMouseUp fresh r).startPoint = r.startPoint) := by
  constructor
  · unfold handleMouseUp
    cases hp : s.selectionPreview with
    | none => simp
    | some q =>
      dsimp only
      by_cases hq : q.width > 20 ∧ q.height > 20
      · rw [if_pos hq]
        refine ⟨?_, ?_, ?_, rfl, rfl, rfl⟩
        · intro he _ _
          rw [Option.some.injEq] at he
          subst he
          exact ⟨rfl, rfl⟩
        · intro he hn
          rw [Option.some.injEq] at he
          subst he
          exact absurd hq hn
        · intro he; cases he
      · rw [if_neg hq]
        refine ⟨?_, ?_, ?_, rfl, rfl, rfl⟩
        · intro he hw hh
          rw [Option.some.injEq] at he
          subst he
          exact absurd ⟨hw, hh⟩ hq
        · intro _ _; exact ⟨rfl, rfl⟩
        · intro he; cases he
  · unfold Reduced.handleMouseUp
    cases hp : r.selection with
    | none => simp
    | some q =>
      dsimp only
      by_cases hq : q.width > 20 ∧ q.height > 20
      · rw [if_pos hq]
        refine ⟨rfl, ?_, ?_, ?_, rfl, rfl, rfl⟩
        · intro he _ _
          rw [Option.some.injEq] at he
          subst he
          rfl
        · intro he hn
          rw [Option.some.injEq] at he
          subst he
          exact absurd hq hn
        · intro he; cases he
      · rw [if_neg hq]
        refine ⟨rfl, ?_, ?_, ?_, rfl, rfl, rfl⟩
        · intro he hw hh
          rw [Option.some.injEq] at he
          subst he
          exact absurd ⟨hw, hh⟩ hq
        · intro _ _; rfl
        · intro he; cases he

/-- C2 (witness): a full-variant state in the middle of a draw gesture
whose preview is 21×21. -/
def c2AState : AppState :=
  { initialState with isSelecting := true, startPoint := some (10, 10),
                      selectionPreview := some c2Preview }

/-- C2 witness: evaluating the amended commit theorem on the concrete
21×21 preview states of both variants. -/
theorem handleMouseUp_commit_witness :
    ((handleMouseUp "n" c2AState).blocks = c2AState.blocks ++ [{ c2Preview with id := "n" }]
      ∧ (handleMouseUp "n" c2AState).selectedId = some "n")
    ∧ (Reduced.handleMouseUp "n" c2RState).blocks = c2RState.blocks ++ [{ c2Preview with id := "n" }] :=
  ⟨(handleMouseUp_commit c2AState c2RState "n" c2Preview).1.1 rfl (by decide) (by decide),
   (handleMouseUp_commit c2AState c2RState "n" c2Preview).2.2.1 rfl (by decide) (by decide)⟩

/-! ## C3 — pointer-down guard -/

/-- An event target lying on an existing block's interactive region. -/
def blockTarget : MouseTarget := { onRndBlock := true, tagName := "DIV" }

/-- An idle reduced-variant state with one block, which is selected. -/
def c3RState : Reduced.RState :=
  { blocks := [blockA]
    selectedBlockId := some "a"
    isSelecting := false
    startPoint := none
    selection := none }

/-- C3 (counterexample): in the reduced variant a pointer-down whose
target lies on an existing block's interactive region still starts a
draw gesture and clears the selection — `handleMouseDown` of
`src/web-designer/src/App.tsx` never inspects the event target. -/
theorem handleMouseDown_c3_counterexample :
    blockTarget.onRndBlock = true
    ∧ (Reduced.handleMouseDown blockTarget (5, 5) c3RState).isSelecting = true
    ∧ (Reduced.handleMouseDown blockTarget (5, 5) c3RState).startPoint = some (5, 5)
    ∧ c3RState.selectedBlockId = some "a"
    ∧ (Reduced.handleMouseDown blockTarget (5, 5) c3RState).selectedBlockId ≠ some "a" := by
  decide

/-- C3 (amended): in the full variant a pointer-down on an existing
block's interactive region or on a BUTTON/INPUT leaves the whole state
untouched (no draw gesture starts), and a pointer-down on empty surface
enters the drawing state, records the anchor point and clears the
selection; the reduced variant has no such guard — every pointer-down,
whatever its target, starts a draw gesture, records the anchor and
clears the selection. -/
theorem handleMouseDown_guard (s : AppState) (r : Reduced.RState)
    (target : MouseTarget) (pt : Int × Int) :
    ((target.onRndBlock = true ∨ target.tagName = "BUTTON" ∨ target.tagName = "INPUT") →
        handleMouseDown target pt s = s)
    ∧ (target.onRndBlock = false → target.tagName ≠ "BUTTON" → target.tagName ≠ "INPUT" →
        (handleMouseDown target pt s).isSelecting = true
        ∧ (handleMouseDown target pt s).startPoint = some pt
        ∧ (handleMouseDown target pt s).selectedId = none
        ∧ (handleMouseDown target pt s).blocks = s.blocks)
    ∧ (∀ t2 : MouseTarget,
        (Reduced.handleMouseDown t2 pt r).isSelecting = true
        ∧ (Reduced.handleMouseDown t2 pt r).startPoint = some pt
        ∧ (Reduced.handleMouseDown t2 pt r).selectedBlockId = none
        ∧ (Reduced.handleMouseDown t2 pt r).selection = none
        ∧ (Reduced.handleMouseDown t2 pt r).blocks = r.blocks) := by
  refine ⟨?_, ?_, ?_⟩
  · intro hguard
    unfold handleMouseDown
    rw [if_pos]
    rcases hguard with h | h | h
    · simp [h]
    · simp [h]
    · simp [h]
  · intro h1 h2 h3
    unfold handleMouseDown
    rw [if_neg]
    · exact ⟨rfl, rfl, rfl, rfl⟩
    · simp [h1, h2, h3]
  · intro t2
    exact ⟨rfl, rfl, rfl, rfl, rfl⟩

/-- C3 witness: evaluating the guard theorem on a block-hitting target
and on an empty-surface target in both variants. -/
theorem handleMouseDown_guard_witness :
    handleMouseDown blockTarget (5, 5) initialState = initialState
    ∧ (handleMouseDown ⟨false, "DIV"⟩ (5, 5) initialState).isSelecting = true
    ∧ (Reduced.handleMouseDown blockTarget (5, 5) c3RState).isSelecting = true :=
  ⟨(handleMouseDown_guard initialState c3RState blockTarget (5, 5)).1 (Or.inl rfl),
   ((handleMouseDown_guard initialState c3RState ⟨false, "DIV"⟩ (5, 5)).2.1
      rfl (by decide) (by decide)).1,
   ((handleMouseDown_guard initialState c3RState ⟨false, "DIV"⟩ (5, 5)).2.2 blockTarget).1⟩

/-! ## C4 — table-generation transport failure -/

/-- C4: a transport-level failure of the table-generation request leaves
the whole state (registry, every block's content, modal, prompt text,
selection) exactly as it was and emits the user-visible alert; no partial
data is applied. -/
theorem sendTablePrompt_failure (s : AppState) (e : Unit) :
    sendTablePrompt (Except.error e) s = (s, ["Backend error generating table"]) := rfl

/-! ## C5 — stale image completion -/

/-- C5: an asynchronous image-encoding completion whose captured id no
longer exists in the registry leaves the whole state exactly unchanged
(a silent no-op); when the id does exist, the update resolves by id: the
matching block receives the image content and every other block survives
unchanged, wherever it sits in the list. -/
theorem addImageComplete_stale (s : AppState) (i : Id) (d : String) :
    (i ∉ s.blocks.map Block.id → addImageComplete i d s = s)
    ∧ (∀ b ∈ s.blocks, b.id ≠ i → b ∈ (addImageComplete i d s).blocks)
    ∧ (∀ b ∈ s.blocks, b.id = i →
        ({ b with content := some (Content.image d) } : Block) ∈ (addImageComplete i d s).blocks)
    ∧ (addImageComplete i d s).selectedId = s.selectedId := by
  refine ⟨?_, ?_, ?_, rfl⟩
  · intro h
    unfold addImageComplete
    rw [map_noop_of_fresh s.blocks i _ h]
  · intro b hb hne
    have : (if b.id = i then ({ b with content := some (Content.image d) } : Block) else b) = b :=
      if_neg hne
    exact this ▸ List.mem_map_of_mem _ hb
  · intro b hb heq
    have : (if b.id = i then ({ b with content := some (Content.image d) } : Block) else b)
        = { b with content := some (Content.image d) } := if_pos heq
    exact this ▸ List.mem_map_of_mem _ hb

/-- C5 witness: the completion for the deleted id "z" applied to a state
holding only blocks "a" and "b" changes nothing, and the completion for
the present id "a" keeps block "b" and rewrites block "a"'s content. -/
theorem addImageComplete_stale_witness :
    addImageComplete "z" "uri" c1State = c1State
    ∧ blockB ∈ (addImageComplete "a" "uri" c1State).blocks
    ∧ ({ blockA with content := some (Content.image "uri") } : Block)
        ∈ (addImageComplete "a" "uri" c1State).blocks :=
  ⟨(addImageComplete_stale c1State "z" "uri").1 (by decide),
   (addImageComplete_stale c1State "a" "uri").2.1 blockB (by decide) (by decide),
   (addImageComplete_stale c1State "a" "uri").2.2.1 blockA (by decide) (by decide)⟩

/-! ## C6 — duplicate -/

/-- C6: duplicating a block appends a copy whose id is the fresh one
(distinct from every id already present), whose position is the source's
offset by the fixed constant 20 in both axes, and whose content equals
the source's; the source block itself stays in the registry unchanged,
and the duplicate becomes the selected block. -/
theorem duplicateBlock_spec (s : AppState) (b : Block) (fresh : Id)
    (hb : b ∈ s.blocks) (hf : fresh ∉ s.blocks.map Block.id) :
    (duplicateBlock fresh b s).blocks
      = s.blocks ++ [{ b with id := fresh, x := b.x + 20, y := b.y + 20 }]
    ∧ (∀ j ∈ s.blocks.map Block.id, fresh ≠ j)
    ∧ ({ b with id := fresh, x := b.x + 20, y := b.y + 20 } : Block).content = b.content
    ∧ b ∈ (duplicateBlock fresh b s).blocks
    ∧ (duplicateBlock fresh b s).selectedId = some fresh := by
  refine ⟨rfl, ?_, rfl, ?_, rfl⟩
  · intro j hj heq
    exact hf (by rwa [heq])
  · exact List.mem_append_left _ hb

/-- C6 witness: duplicating block "a" in the two-block state appends the
offset copy with fresh id "f", keeps the source, and selects "f". -/
theorem duplicateBlock_spec_witness :
    (duplicateBlock "f" blockA c1State).blocks
      = c1State.blocks ++ [{ blockA with id := "f", x := blockA.x + 20, y := blockA.y + 20 }]
    ∧ blockA ∈ (duplicateBlock "f" blockA c1State).blocks
    ∧ (duplicateBlock "f" blockA c1State).selectedId = some "f" :=
  ⟨(duplicateBlock_spec c1State blockA "f" (by decide) (by decide)).1,
   (duplicateBlock_spec c1State blockA "f" (by decide) (by decide)).2.2.2.1,
   (duplicateBlock_spec c1State blockA "f" (by decide) (by decide)).2.2.2.2⟩

/-! ## C7 — set text -/

/-- C7: a cancelled (`none`) or empty text input leaves the entire state
of either variant unchanged and emits no alert; a non-empty input emits
no alert either and replaces the matching block's content wholesale with
the text (whatever content it had), leaving every other block and the
selection unchanged. -/
theorem addText_spec (s : AppState) (r : Reduced.RState) (i : Id) (t : String) :
    addText none i s = (s, [])
    ∧ addText (some "") i s = (s, [])
    ∧ Reduced.addTextToBlock none i r = (r, [])
    ∧ Reduced.addTextToBlock (some "") i r = (r, [])
    ∧ (t ≠ "" →
        (addText (some t) i s).2 = []
        ∧ (∀ b ∈ s.blocks, b.id = i →
            ({ b with content := some (Content.text t) } : Block) ∈ (addText (some t) i s).1.blocks)
        ∧ (∀ b ∈ s.blocks, b.id ≠ i → b ∈ (addText (some t) i s).1.blocks)
        ∧ (addText (some t) i s).1.selectedId = s.selectedId
        ∧ (∀ b ∈ r.blocks, b.id = i →
            ({ b with content := some (Content.text t) } : Block)
              ∈ (Reduced.addTextToBlock (some t) i r).1.blocks)
        ∧ (∀ b ∈ r.blocks, b.id ≠ i → b ∈ (Reduced.addTextToBlock (some t) i r).1.blocks)) := by
  refine ⟨rfl, rfl, rfl, rfl, ?_⟩
  intro ht
  unfold addText Reduced.addTextToBlock
  dsimp only
  simp only [if_neg ht]
  refine ⟨by trivial, ?_, ?_, by trivial, ?_, ?_⟩
  · intro b hb heq
    have : (if b.id = i then ({ b with content := some (Content.text t) } : Block) else b)
        = { b with content := some (Content.text t) } := if_pos heq
    exact this ▸ List.mem_map_of_mem _ hb
  · intro b hb hne
    have : (if b.id = i then ({ b with content := some (Content.text t) } : Block) else b) = b :=
      if_neg hne
    exact this ▸ List.mem_map_of_mem _ hb
  · intro b hb heq
    have : (if b.id = i then ({ b with content := some (Content.text t) } : Block) else b)
        = { b with content := some (Content.text t) } := if_pos heq
    exact this ▸ List.mem_map_of_mem _ hb
  · intro b hb hne
    have : (if b.id = i then ({ b with content := some (Content.text t) } : Block) else b) = b :=
      if_neg hne
    exact this ▸ List.mem_map_of_mem _ hb

/-- C7 witness: with the text "hello" targeted at block "a" of the
two-block state, block "a" receives exactly that text and block "b"
survives; cancelled input is the exact identity on the state. -/
theorem addText_spec_witness :
    addText none "a" c1State = (c1State, [])
    ∧ ({ blockA with content := some (Content.text "hello") } : Block)
        ∈ (addText (some "hello") "a" c1State).1.blocks
    ∧ blockB ∈ (addText (some "hello") "a" c1State).1.blocks :=
  ⟨(addText_spec c1State Reduced.rInitialState "a" "hello").1,
   ((addText_spec c1State Reduced.rInitialState "a" "hello").2.2.2.2
      (by decide)).2.1 blockA (by decide) (by decide),
   ((addText_spec c1State Reduced.rInitialState "a" "hello").2.2.2.2
      (by decide)).2.2.1 blockB (by decide) (by decide)⟩

/-! ## C8 — drag normalization -/

/-- C8: during a draw gesture, pointer-move sets the preview rectangle's
top-left to the component-wise minimum of the anchor and the current
point and its extents to the absolute component-wise differences, in
both variants; and the concrete gesture anchored at (150,150) and
released at (50,80) commits exactly one block at (50,80) with width 100
and height 70. -/
theorem handleMouseMove_normalizes (s : AppState) (start pt : Int × Int)
    (hsel : s.isSelecting = true) (hstart : s.startPoint = some start) :
    (handleMouseMove pt s).selectionPreview = some (
      { id := "temp", x := min start.1 pt.1, y := min start.2 pt.2,
        width := |pt.1 - start.1|, height := |pt.2 - start.2| } : Block)
    ∧ (∀ r : Reduced.RState, r.isSelecting = true → r.startPoint = some start →
        (Reduced.handleMouseMove pt r).selection = some (
          { id := "temp", x := min start.1 pt.1, y := min start.2 pt.2,
            width := |pt.1 - start.1|, height := |pt.2 - start.2| } : Block))
    ∧ (handleMouseUp "n"
        (handleMouseMove (50, 80)
          (handleMouseDown ⟨false, "DIV"⟩ (150, 150) initialState))).blocks
      = [({ id := "n", x := 50, y := 80, width := 100, height := 70 } : Block)] := by
  refine ⟨?_, ?_, ?_⟩
  · unfold handleMouseMove
    rw [hsel, hstart]
    rfl
  · intro r hrsel hrstart
    unfold Reduced.handleMouseMove
    rw [hrsel, hrstart]
    rfl
  · decide

/-- C8 witness: the preview formula evaluated on the concrete gesture
anchored at (150,150) with the pointer at (50,80), in both variants. -/
theorem handleMouseMove_normalizes_witness :
    (handleMouseMove (50, 80)
        (handleMouseDown ⟨false, "DIV"⟩ (150, 150) initialState)).selectionPreview
      = some ({ id := "temp", x := 50, y := 80, width := 100, height := 70 } : Block)
    ∧ (Reduced.handleMouseMove (50, 80)
        (Reduced.handleMouseDown ⟨false, "DIV"⟩ (150, 150) Reduced.rInitialState)).selection
      = some ({ id := "temp", x := 50, y := 80, width := 100, height := 70 } : Block) := by
  have h := handleMouseMove_normalizes
    (handleMouseDown ⟨false, "DIV"⟩ (150, 150) initialState)
    (150, 150) (50, 80) (by decide) (by decide)
  exact ⟨by rw [h.1]; decide,
         by rw [h.2.1 (Reduced.handleMouseDown ⟨false, "DIV"⟩ (150, 150) Reduced.rInitialState)
                  (by decide) (by decide)]; decide⟩

/-! ## C10 — synchronous content operations on a nonexistent id -/

/-- C10: the synchronous content operations — set-icon, and set-text with
a non-empty input — targeted at an id not present in the registry leave
the state of either variant exactly unchanged and emit no alert. -/
theorem content_ops_nonexistent_id (s : AppState) (r : Reduced.RState) (i : Id)
    (t : String) (ht : t ≠ "")
    (hi : i ∉ s.blocks.map Block.id) (hr : i ∉ r.blocks.map Block.id) :
    addIcon i s = s
    ∧ addText (some t) i s = (s, [])
    ∧ Reduced.addIconToBlock i r = r
    ∧ Reduced.addTextToBlock (some t) i r = (r, []) := by
  refine ⟨?_, ?_, ?_, ?_⟩
  · unfold addIcon
    rw [map_noop_of_fresh s.blocks i _ hi]
  · unfold addText
    dsimp only
    rw [if_neg ht, map_noop_of_fresh s.blocks i _ hi]
  · unfold Reduced.addIconToBlock
    rw [map_noop_of_fresh r.blocks i _ hr]
  · unfold Reduced.addTextToBlock
    dsimp only
    rw [if_neg ht, map_noop_of_fresh r.blocks i _ hr]

/-- C10 witness: set-icon and set-text "hello" for the absent id "z"
leave the concrete two-block state and the empty reduced state exactly
unchanged. -/
theorem content_ops_nonexistent_id_witness :
    addIcon "z" c1State = c1State
    ∧ addText (some "hello") "z" c1State = (c1State, [])
    ∧ Reduced.addIconToBlock "z" Reduced.rInitialState = Reduced.rInitialState :=
  ⟨(content_ops_nonexistent_id c1State Reduced.rInitialState "z" "hello"
      (by decide) (by decide) (by decide)).1,
   (content_ops_nonexistent_id c1State Reduced.rInitialState "z" "hello"
      (by decide) (by decide) (by decide)).2.1,
   (content_ops_nonexistent_id c1State Reduced.rInitialState "z" "hello"
      (by decide) (by decide) (by decide)).2.2.1⟩

/-! ## C9 — selection invariant -/

/-- The content-replacing update functions preserve a block's id. -/
theorem update_content_id (i : Id) (c : Option Content) (b : Block) :
    (if b.id = i then ({ b with content := c } : Block) else b).id = b.id := by
  by_cases hb : b.id = i <;> simp [hb]

/-- C9: selection is a single nullable reference (so at most one block is
selected), the invariant "the selected id is null or the id of a block
present in the registry" holds in the initial state of both variants,
and it is preserved by every operation: create default block, the three
pointer handlers (anchor, preview, commit), select by click (of a
rendered, hence present, block), delete, duplicate, every content
assignment (icon, text, image completion, table response — success or
failure), and the drag/resize merges. -/
theorem selInv_preserved (s : AppState) (r : Reduced.RState) (target : MouseTarget)
    (pt : Int × Int) (f i : Id) (b : Block) (input : Option String) (d : String)
    (resp : Except Unit (List (List (String × String)))) (w h : Int) :
    selInv initialState
    ∧ (∀ j k : Id, s.selectedId = some j → s.selectedId = some k → j = k)
    ∧ (selInv s → selInv (createDefaultBlock f s))
    ∧ (selInv s → selInv (handleMouseDown target pt s))
    ∧ (selInv s → selInv (handleMouseMove pt s))
    ∧ (selInv s → selInv (handleMouseUp f s))
    ∧ (i ∈ s.blocks.map Block.id → selInv (selectBlock i s))
    ∧ selInv (deleteBlock i s)
    ∧ (selInv s → selInv (duplicateBlock f b s))
    ∧ (selInv s → selInv (addIcon i s))
    ∧ (selInv s → selInv (addText input i s).1)
    ∧ (selInv s → selInv (addImageComplete i d s))
    ∧ (selInv s → selInv (sendTablePrompt resp s).1)
    ∧ (selInv s → selInv (dragStop i pt s))
    ∧ (selInv s → selInv (resizeStop i w h pt s))
    ∧ rSelInv Reduced.rInitialState
    ∧ rSelInv (Reduced.handleMouseDown target pt r)
    ∧ (rSelInv r → rSelInv (Reduced.handleMouseMove pt r))
    ∧ (rSelInv r → rSelInv (Reduced.handleMouseUp f r))
    ∧ (i ∈ r.blocks.map Block.id → rSelInv (Reduced.rSelectBlock i r))
    ∧ (rSelInv r → rSelInv (Reduced.addIconToBlock i r))
    ∧ (rSelInv r → rSelInv (Reduced.addTextToBlock input i r).1) := by
  refine ⟨?_, ?_, ?_, ?_, ?_, ?_, ?_, ?_, ?_, ?_, ?_, ?_, ?_, ?_, ?_, ?_, ?_, ?_, ?_, ?_, ?_, ?_⟩
  · intro j hj
    simp [initialState] at hj
  · intro j k hj hk
    rw [hj] at hk
    exact Option.some.inj hk
  · intro _ j hj
    have hjf : f = j := Option.some.inj hj
    subst hjf
    simp [createDefaultBlock]
  · intro hs
    unfold handleMouseDown
    split
    · exact hs
    · intro j hj
      simp at hj
  · intro hs
    refine selInv_of_fields s (handleMouseMove pt s) ?_ ?_ hs
    · unfold handleMouseMove
      split
      · rfl
      · split <;> rfl
    · unfold handleMouseMove
      split
      · rfl
      · split <;> rfl
  · intro hs
    unfold handleMouseUp
    split
    · split
      · intro j hj
        have hjf : f = j := Option.some.inj hj
        subst hjf
        simp
      · intro j hj
        exact hs j hj
    · intro j hj
      exact hs j hj
  · intro hmem j hj
    have hij : i = j := Option.some.inj hj
    subst hij
    exact hmem
  · intro j hj
    simp [deleteBlock] at hj
  · intro _ j hj
    have hjf : f = j := Option.some.inj hj
    subst hjf
    simp [duplicateBlock]
  · intro hs
    exact selInv_of_fields s _ rfl
      (ids_map_of_preserve s.blocks _ (update_content_id i _)) hs
  · intro hs
    cases input with
    | none => exact hs
    | some t =>
      unfold addText
      dsimp only
      by_cases ht : t = ""
      · rw [if_pos ht]
        exact hs
      · rw [if_neg ht]
        exact selInv_of_fields s _ rfl
          (ids_map_of_preserve s.blocks _ (update_content_id i _)) hs
  · intro hs
    exact selInv_of_fields s _ rfl
      (ids_map_of_preserve s.blocks _ (update_content_id i _)) hs
  · intro hs
    cases resp with
    | error e => exact hs
    | ok rows =>
      exact selInv_of_fields s _ rfl
        (ids_map_of_preserve s.blocks _
          (fun b2 => by by_cases hb : some b2.id = s.selectedId <;> simp [hb])) hs
  · intro hs
    exact selInv_of_fields s _ rfl
      (ids_map_of_preserve s.blocks _
        (fun b2 => by by_cases hb : b2.id = i <;> simp [hb])) hs
  · intro hs
    exact selInv_of_fields s _ rfl
      (ids_map_of_preserve s.blocks _
        (fun b2 => by by_cases hb : b2.id = i <;> simp [hb])) hs
  · intro j hj
    simp [Reduced.rInitialState] at hj
  · intro j hj
    simp [Reduced.handleMouseDown] at hj
  · intro hs
    refine rSelInv_of_fields r (Reduced.handleMouseMove pt r) ?_ ?_ hs
    · unfold Reduced.handleMouseMove
      split
      · rfl
      · split <;> rfl
    · unfold Reduced.handleMouseMove
      split
      · rfl
      · split <;> rfl
  · intro hs
    unfold Reduced.handleMouseUp
    split
    · split
      · intro j hj
        have h1 := hs j hj
        dsimp only
        simp only [List.map_append, List.mem_append]
        exact Or.inl h1
      · intro j hj
        exact hs j hj
    · intro j hj
      exact hs j hj
  · intro hmem j hj
    have hij : i = j := Option.some.inj hj
    subst hij
    exact hmem
  · intro hs
    exact rSelInv_of_fields r _ rfl
      (ids_map_of_preserve r.blocks _ (update_content_id i _)) hs
  · intro hs
    cases input with
    | none => exact hs
    | some t =>
      unfold Reduced.addTextToBlock
      dsimp only
      by_cases ht : t = ""
      · rw [if_pos ht]
        exact hs
      · rw [if_neg ht]
        exact rSelInv_of_fields r _ rfl
          (ids_map_of_preserve r.blocks _ (update_content_id i _)) hs

/-- C9 witness: the invariant holds after creating a default block in the
initial state and after then selecting it by click. -/
theorem selInv_preserved_witness :
    selInv (createDefaultBlock "a" initialState)
    ∧ selInv (selectBlock "a" (createDefaultBlock "a" initialState)) :=
  ⟨(selInv_preserved initialState Reduced.rInitialState blockTarget (0, 0) "a" "a"
      blockA none "d" (Except.error ()) 0 0).2.2.1
    ((selInv_preserved initialState Reduced.rInitialState blockTarget (0, 0) "a" "a"
      blockA none "d" (Except.error ()) 0 0).1),
   (selInv_preserved (createDefaultBlock "a" initialState) Reduced.rInitialState
      blockTarget (0, 0) "a" "a" blockA none "d" (Except.error ()) 0 0).2.2.2.2.2.2.1
    (by decide)⟩

end WebDesigner
